import Mathlib

/-!
Verification development for the MLOps_ENDTOEND_PROJECT_mathsPridiction
repository: a five-stage batch ML pipeline (ingest, validate, transform,
train, evaluate) plus Flask prediction APIs.

The Python sources are shallowly embedded here:
  * JSON request bodies are association lists of string keys to values that
    are either JSON strings or JSON numbers (modelled as exact rationals).
    Python's `float(v)` conversion succeeds on numbers and fails (raises)
    on the non-numeric strings used in this development; a failed
    conversion is modelled as `none`.
  * `api/index.py` (`preprocess_input`, the `/predict` handler) and
    `api/predict.py` (`preprocess_input`) are embedded in namespaces
    `ApiIndex` and `ApiPredict`.
  * `main.py`'s sequential stage driver is embedded as a fold over the
    five stages, with each stage's `main()` outcome given by an
    `Except String Unit` behaviour; the per-stage try/except blocks of
    `main.py` (log the exception, re-raise) are modelled by an event trace
    and an error field.
  * pandas DataFrames are embedded per component with exactly the
    structure that component manipulates (typed columns with optional
    entries for `handle_missing_values`, a column map for the
    column-alignment step of `transform`, numeric row-major frames for
    `ModelEvaluation.evaluate`).
-/

/-- A JSON value occurring in a request body: a string or a number.
Numbers are modelled as exact rationals. -/
inductive JVal where
  | jstr : String → JVal
  | jnum : ℚ → JVal
deriving DecidableEq

/-- A JSON object (request body): an association list from keys to values,
first binding wins, mirroring a Python dict with unique keys. -/
abbrev JObj := List (String × JVal)

/-- Lookup of a key in a JSON object, mirroring Python `data.get(key)`. -/
def jget : JObj → String → Option JVal
  | [], _ => none
  | (k, v) :: rest, key => if k = key then some v else jget rest key

/-- Python `float(...)` applied to `data.get(key, default)`: the default is
used when the key is absent, a JSON number converts to itself, and a
(non-numeric) JSON string makes the conversion raise, modelled as `none`. -/
def floatD (v : Option JVal) (d : ℚ) : Option ℚ :=
  match v with
  | none => some d
  | some (JVal.jnum q) => some q
  | some (JVal.jstr _) => none

/-- Training info as persisted by `ModelTrainer.train` in
`training_info.pkl` (the fields the APIs read). -/
structure TrainingInfo where
  feature_columns : List String
  alpha : ℚ
  l1_ratio : ℚ
  target_column : String

namespace ApiIndex

/-- One step of the `for feature in feature_columns` loop of
`preprocess_input` in `api/index.py`: the if/elif chain on the feature
name, in source order.  `none` models the `float()` call raising (which
the surrounding try/except of `preprocess_input` turns into a `None`
result). -/
def encodeFeature (data : JObj) (feature : String) : Option ℚ :=
  if feature = "gender_male" then
    some (if jget data "gender" = some (JVal.jstr "male") then 1 else 0)
  else if feature = "lunch_standard" then
    some (if jget data "lunch" = some (JVal.jstr "standard") then 1 else 0)
  else if feature = "parental_level_of_education_bachelor\x27s degree" then
    some (if jget data "parental_level_of_education" = some (JVal.jstr "bachelor\x27s degree") then 1 else 0)
  else if feature = "parental_level_of_education_high school" then
    some (if jget data "parental_level_of_education" = some (JVal.jstr "high school") then 1 else 0)
  else if feature = "parental_level_of_education_master\x27s degree" then
    some (if jget data "parental_level_of_education" = some (JVal.jstr "master\x27s degree") then 1 else 0)
  else if feature = "parental_level_of_education_some college" then
    some (if jget data "parental_level_of_education" = some (JVal.jstr "some college") then 1 else 0)
  else if feature = "parental_level_of_education_some high school" then
    some (if jget data "parental_level_of_education" = some (JVal.jstr "some high school") then 1 else 0)
  else if feature = "race_ethnicity_group B" then
    some (if jget data "race_ethnicity" = some (JVal.jstr "group B") then 1 else 0)
  else if feature = "race_ethnicity_group C" then
    some (if jget data "race_ethnicity" = some (JVal.jstr "group C") then 1 else 0)
  else if feature = "race_ethnicity_group D" then
    some (if jget data "race_ethnicity" = some (JVal.jstr "group D") then 1 else 0)
  else if feature = "race_ethnicity_group E" then
    some (if jget data "race_ethnicity" = some (JVal.jstr "group E") then 1 else 0)
  else if feature = "reading_score" then
    floatD (jget data "reading_score") 0
  else if feature = "test_preparation_course_none" then
    some (if jget data "test_preparation_course" = some (JVal.jstr "none") then 1 else 0)
  else if feature = "writing_score" then
    floatD (jget data "writing_score") 0
  else
    some 0

/-- `preprocess_input` of `api/index.py`: `None` when `training_info` is
`None`, otherwise the feature vector built by the loop over
`training_info['feature_columns']`; any exception inside the loop (a
failing `float()`) makes the whole call return `None`, which `mapM` over
`Option` models exactly. -/
def preprocess_input (data : JObj) (training_info : Option TrainingInfo) : Option (List ℚ) :=
  match training_info with
  | none => none
  | some ti => ti.feature_columns.mapM (encodeFeature data)

/-- The response of the `/predict` handler, keeping the fields the claims
mention: HTTP status code, the `prediction` field, the `model_used` field
and the `error` field. -/
structure PredictResponse where
  status : Nat
  prediction : Option ℚ
  model_used : Option String
  error : Option String
deriving DecidableEq

/-- The `/predict` (and `/api/predict`) handler of `api/index.py`.
`body` is the parsed JSON (`none` for a missing body; Python also treats
the empty dict as falsy in `if not data`).  `loaded` is the result of
`load_model_and_info()` (the model is abstracted as a function from a
feature row to the first element of its prediction).  `noise` is the
`np.random.normal(0, 3)` sample of the fallback branch.  A `float()`
failure in the fallback branch propagates to the outer except, giving a
500 response. -/
def predict (body : Option JObj) (loaded : Option ((List ℚ → ℚ) × TrainingInfo)) (noise : ℚ) :
    PredictResponse :=
  match body with
  | none => ⟨400, none, none, some "No input data provided"⟩
  | some data =>
    if data.isEmpty then ⟨400, none, none, some "No input data provided"⟩
    else
      match loaded with
      | none =>
        match floatD (jget data "reading_score") 50, floatD (jget data "writing_score") 50 with
        | some reading, some writing =>
          let base_score := (reading + writing) / 2
          let s1 := if jget data "test_preparation_course" = some (JVal.jstr "completed") then
              base_score + 5 else base_score
          let s2 := if jget data "lunch" = some (JVal.jstr "free/reduced") then
              s1 - 3 else s1
          let s3 := if jget data "parental_level_of_education" = some (JVal.jstr "bachelor\x27s degree") ∨
              jget data "parental_level_of_education" = some (JVal.jstr "master\x27s degree") then
              s2 + 4 else s2
          ⟨200, some (max 0 (min 100 (s3 + noise))), some "fallback_intelligent_mock", none⟩
        | _, _ => ⟨500, none, none, some "could not convert string to float"⟩
      | some (model, training_info) =>
        match preprocess_input data (some training_info) with
        | none => ⟨400, none, none, some "Failed to preprocess input data"⟩
        | some processed_data =>
          ⟨200, some (model processed_data), some "trained_elasticnet", none⟩

end ApiIndex

namespace ApiPredict

/-- The hard-coded `expected_features` list of `preprocess_input` in
`api/predict.py`, in source order. -/
def expected_features : List String :=
  ["writing_score", "reading_score", "gender_male",
   "race_ethnicity_group_B", "race_ethnicity_group_C",
   "race_ethnicity_group_D", "race_ethnicity_group_E",
   "parental_level_of_education_bachelor_degree",
   "parental_level_of_education_high_school",
   "parental_level_of_education_master_degree",
   "parental_level_of_education_some_college",
   "parental_level_of_education_some_high_school",
   "lunch_standard", "test_preparation_course_none"]

/-- `preprocess_input` of `api/predict.py`: for each expected feature the
body's raw value if the key is present, else the number 0. -/
def preprocess_input (data : JObj) : List JVal :=
  expected_features.map (fun feature =>
    match jget data feature with
    | some v => v
    | none => JVal.jnum 0)

end ApiPredict

/-- The feature columns recorded at training time: the transformed train
columns of the students dataset in ascending sorted order (the order
produced by `transform`'s final reindex), minus the target column
`math_score` (dropped by `ModelTrainer.train` without reordering).  These
are exactly the fourteen column names the if/elif chain of
`api/index.py`'s `preprocess_input` recognises. -/
def trainingFeatureColumns : List String :=
  ["gender_male", "lunch_standard",
   "parental_level_of_education_bachelor\x27s degree",
   "parental_level_of_education_high school",
   "parental_level_of_education_master\x27s degree",
   "parental_level_of_education_some college",
   "parental_level_of_education_some high school",
   "race_ethnicity_group B", "race_ethnicity_group C",
   "race_ethnicity_group D", "race_ethnicity_group E",
   "reading_score", "test_preparation_course_none", "writing_score"]

/-- Key `key` of the body is safe for Python `float()`: it is absent or a
JSON number (a JSON string would make `float()` raise). -/
def scoreOk (data : JObj) (key : String) : Bool :=
  match jget data key with
  | some (JVal.jstr _) => false
  | _ => true

/-- The numeric value of key `key` in the body, with default `d` for an
absent key (the value `float(data.get(key, d))` takes when it does not
raise). -/
def fallbackNum (data : JObj) (key : String) (d : ℚ) : ℚ :=
  match jget data key with
  | some (JVal.jnum q) => q
  | _ => d

/-- The training-time one-hot encoding of a single feature column, written
from the specification's description: 1 exactly when the corresponding
categorical field of the body equals the category named in the column
(gender male, lunch standard, the five parental-education levels, race
groups B to E, test-preparation-course none), the numeric value of
reading_score / writing_score (0 when the field is absent), and 0 for any
column name not recognised. -/
def specEncode (data : JObj) (col : String) : ℚ :=
  if col = "gender_male" then
    (if jget data "gender" = some (JVal.jstr "male") then 1 else 0)
  else if col = "lunch_standard" then
    (if jget data "lunch" = some (JVal.jstr "standard") then 1 else 0)
  else if col = "parental_level_of_education_bachelor\x27s degree" then
    (if jget data "parental_level_of_education" = some (JVal.jstr "bachelor\x27s degree") then 1 else 0)
  else if col = "parental_level_of_education_high school" then
    (if jget data "parental_level_of_education" = some (JVal.jstr "high school") then 1 else 0)
  else if col = "parental_level_of_education_master\x27s degree" then
    (if jget data "parental_level_of_education" = some (JVal.jstr "master\x27s degree") then 1 else 0)
  else if col = "parental_level_of_education_some college" then
    (if jget data "parental_level_of_education" = some (JVal.jstr "some college") then 1 else 0)
  else if col = "parental_level_of_education_some high school" then
    (if jget data "parental_level_of_education" = some (JVal.jstr "some high school") then 1 else 0)
  else if col = "race_ethnicity_group B" then
    (if jget data "race_ethnicity" = some (JVal.jstr "group B") then 1 else 0)
  else if col = "race_ethnicity_group C" then
    (if jget data "race_ethnicity" = some (JVal.jstr "group C") then 1 else 0)
  else if col = "race_ethnicity_group D" then
    (if jget data "race_ethnicity" = some (JVal.jstr "group D") then 1 else 0)
  else if col = "race_ethnicity_group E" then
    (if jget data "race_ethnicity" = some (JVal.jstr "group E") then 1 else 0)
  else if col = "test_preparation_course_none" then
    (if jget data "test_preparation_course" = some (JVal.jstr "none") then 1 else 0)
  else if col = "reading_score" then fallbackNum data "reading_score" 0
  else if col = "writing_score" then fallbackNum data "writing_score" 0
  else 0

/-- The clamped mock prediction of the fallback branch of the `/predict`
handler in `api/index.py`, for a body whose `float()` conversions
succeed: the mean of reading and writing scores (default 50), adjusted by
the test-preparation, lunch and parental-education bonuses, plus the
normal noise sample, clamped into [0, 100]. -/
def mockScore (data : JObj) (noise : ℚ) : ℚ :=
  max 0 (min 100
    ((if jget data "parental_level_of_education" = some (JVal.jstr "bachelor\x27s degree") ∨
        jget data "parental_level_of_education" = some (JVal.jstr "master\x27s degree") then
      (if jget data "lunch" = some (JVal.jstr "free/reduced") then
        (if jget data "test_preparation_course" = some (JVal.jstr "completed") then
          (fallbackNum data "reading_score" 50 + fallbackNum data "writing_score" 50) / 2 + 5
         else (fallbackNum data "reading_score" 50 + fallbackNum data "writing_score" 50) / 2) - 3
       else
        (if jget data "test_preparation_course" = some (JVal.jstr "completed") then
          (fallbackNum data "reading_score" 50 + fallbackNum data "writing_score" 50) / 2 + 5
         else (fallbackNum data "reading_score" 50 + fallbackNum data "writing_score" 50) / 2)) + 4
     else
      (if jget data "lunch" = some (JVal.jstr "free/reduced") then
        (if jget data "test_preparation_course" = some (JVal.jstr "completed") then
          (fallbackNum data "reading_score" 50 + fallbackNum data "writing_score" 50) / 2 + 5
         else (fallbackNum data "reading_score" 50 + fallbackNum data "writing_score" 50) / 2) - 3
       else
        (if jget data "test_preparation_course" = some (JVal.jstr "completed") then
          (fallbackNum data "reading_score" 50 + fallbackNum data "writing_score" 50) / 2 + 5
         else (fallbackNum data "reading_score" 50 + fallbackNum data "writing_score" 50) / 2))) + noise))

/-- The five pipeline stages `main.py` runs, named after its STAGE_NAME
blocks. -/
inductive Stage where
  | data_ingestion
  | data_validation
  | data_transformation
  | model_training
  | model_evaluation
deriving DecidableEq

/-- The textual order of the five try/except stage blocks in `main.py`. -/
def stageOrder : List Stage :=
  [Stage.data_ingestion, Stage.data_validation, Stage.data_transformation,
   Stage.model_training, Stage.model_evaluation]

/-- Position of a stage's block in `main.py`. -/
def stageIdx : Stage → Nat
  | Stage.data_ingestion => 0
  | Stage.data_validation => 1
  | Stage.data_transformation => 2
  | Stage.model_training => 3
  | Stage.model_evaluation => 4

/-- An observable event of a `main.py` run: a stage's `main()` is entered,
a stage's `main()` returns normally, or `main.py`'s except block logs the
exception with `logger.exception`. -/
inductive Event where
  | started : Stage → Event
  | completed : Stage → Event
  | exceptionLogged : String → Event
deriving DecidableEq

/-- State of a `main.py` run: the events so far and the uncaught exception
propagating out of the script (`none` while no stage has failed). -/
structure RunState where
  events : List Event
  err : Option String
deriving DecidableEq

/-- One try/except block of `main.py` for stage `s`: if an earlier block
already re-raised, the interpreter never reaches this block; otherwise
the stage's `main()` runs, and on an exception `main.py` logs it and
re-raises (`raise e from e`), recording the error.  `beh` gives each
stage's `main()` outcome. -/
def runStage (beh : Stage → Except String Unit) (st : RunState) (s : Stage) : RunState :=
  match st.err with
  | some _ => st
  | none =>
    match beh s with
    | Except.ok _ => ⟨st.events ++ [Event.started s, Event.completed s], none⟩
    | Except.error e => ⟨st.events ++ [Event.started s, Event.exceptionLogged e], some e⟩

/-- The top-level script `main.py`: the five stage blocks in textual
order. -/
def runMain (beh : Stage → Except String Unit) : RunState :=
  stageOrder.foldl (runStage beh) ⟨[], none⟩

/-- The event trace of a fully successful `main.py` run: each of the five
stages started and completed exactly once, in pipeline order. -/
def allStagesTrace : List Event :=
  [Event.started Stage.data_ingestion, Event.completed Stage.data_ingestion,
   Event.started Stage.data_validation, Event.completed Stage.data_validation,
   Event.started Stage.data_transformation, Event.completed Stage.data_transformation,
   Event.started Stage.model_training, Event.completed Stage.model_training,
   Event.started Stage.model_evaluation, Event.completed Stage.model_evaluation]

/-- The events produced by the stages that precede a given stage when they
all succeed: each earlier stage started and completed once, in order. -/
def prefixTrace : Stage → List Event
  | Stage.data_ingestion => []
  | Stage.data_validation => allStagesTrace.take 2
  | Stage.data_transformation => allStagesTrace.take 4
  | Stage.model_training => allStagesTrace.take 6
  | Stage.model_evaluation => allStagesTrace.take 8

/-- `DataValidation.validate_all_files_exist`: given the outcome of
`os.listdir("artifacts/data_ingestion")` (an error models the call
raising) and the configured ALL_REQUIRED_FILES, computes whether every
required file is present, writes the status text to STATUS_FILE (returned
here as the second component) and returns the status; any exception is
re-raised. -/
def validate_all_files_exist (listing : Except String (List String))
    (required : List String) : Except String (Bool × String) :=
  match listing with
  | Except.error e => Except.error e
  | Except.ok all_files =>
    let validation_status := required.all (fun f => all_files.contains f)
    Except.ok (validation_status,
      "Validation status: " ++ (if validation_status then "True" else "False"))

namespace DataValidationPipeline

/-- `DataValidationPipeline.main` of `stage_02_data_validation.py`: runs
the component inside a try/except that logs the error and does not
re-raise, so it returns normally whatever happens inside. -/
def main (listing : Except String (List String)) (required : List String) :
    Except String Unit :=
  match validate_all_files_exist listing required with
  | Except.ok _ => Except.ok ()
  | Except.error _ => Except.ok ()

end DataValidationPipeline

/-- A pandas column as `DataTransformation.handle_missing_values` sees it:
an int64/float64 column of optional rationals (`none` is NaN) or an
object column of optional strings. -/
inductive ColData where
  | num : List (Option ℚ) → ColData
  | obj : List (Option String) → ColData
deriving DecidableEq

/-- A DataFrame for the imputation step: named, typed columns in order. -/
abbrev MixedFrame := List (String × ColData)

/-- pandas `Series.median()` over the non-null values (NaN skipped by the
caller): sort ascending, middle element for odd length, mean of the two
middle elements for even length. -/
def medianQ (xs : List ℚ) : ℚ :=
  let s := xs.mergeSort (fun a b => decide (a ≤ b))
  if s.length % 2 = 1 then s.getD (s.length / 2) 0
  else (s.getD (s.length / 2 - 1) 0 + s.getD (s.length / 2) 0) / 2

/-- pandas `Series.mode()[0]` over the non-null values: `mode()` lists the
most frequent values in ascending order, so its first element is the
smallest value of maximal multiplicity; `none` when there are no values
(`mode()` empty). -/
def modeFirst (xs : List String) : Option String :=
  let maxCount := (xs.map (fun v => xs.count v)).foldr max 0
  ((xs.filter (fun v => xs.count v = maxCount)).mergeSort (fun a b => decide (a ≤ b))).head?

/-- One column of `handle_missing_values`:
`data[col].fillna(data[col].median())` for an int64/float64 column (a
no-op when the column has no non-null values, since the median is then
NaN), and `data[col].fillna(data[col].mode()[0])` guarded by
`if not data[col].mode().empty` for an object column. -/
def fillCol : ColData → ColData
  | ColData.num xs =>
    let nonNull := xs.filterMap id
    if nonNull.isEmpty then ColData.num xs
    else ColData.num (xs.map (fun x => some (x.getD (medianQ nonNull))))
  | ColData.obj xs =>
    let nonNull := xs.filterMap id
    match modeFirst nonNull with
    | none => ColData.obj xs
    | some m => ColData.obj (xs.map (fun x => some (x.getD m)))

/-- `DataTransformation.handle_missing_values`: every int64/float64 column
and every object column is imputed columnwise (column order and names are
untouched). -/
def handle_missing_values (data : MixedFrame) : MixedFrame :=
  data.map (fun p => (p.1, fillCol p.2))

/-- The columnwise imputation described by the specification, written
entrywise: a non-missing entry is unchanged; a missing entry of a numeric
column becomes the column's median (when the column has any non-null
value); a missing entry of an object column becomes the column's first
mode (when one exists). -/
def specFillCol : ColData → ColData
  | ColData.num xs =>
    ColData.num (xs.map (fun x =>
      match x with
      | some v => some v
      | none =>
        match xs.filterMap id with
        | [] => none
        | ys => some (medianQ ys)))
  | ColData.obj xs =>
    ColData.obj (xs.map (fun x =>
      match x with
      | some v => some v
      | none =>
        match modeFirst (xs.filterMap id) with
        | none => none
        | some m => some m))

/-- A DataFrame after one-hot encoding, as the column-alignment tail of
`DataTransformation.transform` manipulates it: ordered column labels, a
row count, and the contents of each labelled column. -/
structure QFrame where
  cols : List String
  nrows : Nat
  colData : String → List ℚ

/-- The `test_data[col] = 0` loop: each listed (absent) column is appended
after the existing ones as a constant-0 column. -/
def addZeroCols (f : QFrame) (missing : List String) : QFrame :=
  { cols := f.cols ++ missing
    nrows := f.nrows
    colData := fun c =>
      if c ∈ missing then List.replicate f.nrows 0 else f.colData c }

/-- `df = df[sorted(df.columns)]`: reindex the frame by its column labels
in ascending order (the labelled columns themselves are unchanged). -/
def sortColumns (f : QFrame) : QFrame :=
  { cols := f.cols.mergeSort (fun a b => decide (a ≤ b))
    nrows := f.nrows
    colData := f.colData }

/-- The column-alignment tail of `DataTransformation.transform`: compute
the set differences of the two column sets, add each column missing from
one frame to that frame as constant 0, then reorder both frames by sorted
column name. -/
def alignColumns (train_data test_data : QFrame) : QFrame × QFrame :=
  let missing_in_test := train_data.cols.filter (fun c => decide (c ∉ test_data.cols))
  let missing_in_train := test_data.cols.filter (fun c => decide (c ∉ train_data.cols))
  (sortColumns (addZeroCols train_data missing_in_train),
   sortColumns (addZeroCols test_data missing_in_test))

/-- A numeric DataFrame (the transformed train/test CSVs that the trainer
and the evaluator read): ordered column labels and row-major data. -/
structure NumFrame where
  cols : List String
  rows : List (List ℚ)

/-- Position of a column label among the labels. -/
def colIdx : List String → String → Option Nat
  | [], _ => none
  | c :: cs, t => if c = t then some 0 else (colIdx cs t).map (fun i => i + 1)

/-- The target column actually used by `ModelTrainer.train` and
`ModelEvaluation.evaluate`: the configured target when present among the
train columns, else math_score when present, else none (both methods then
raise ValueError). -/
def resolveTarget (target_column : String) (cols : List String) : Option String :=
  if target_column ∈ cols then some target_column
  else if "math_score" ∈ cols then some "math_score"
  else none

/-- `df.drop(columns=[target])` rowwise: each row without the entry at the
target column's position. -/
def featureRows (f : NumFrame) (i : Nat) : List (List ℚ) :=
  f.rows.map (fun r => r.eraseIdx i)

/-- `df[target]`: the column of target values. -/
def targetVals (f : NumFrame) (i : Nat) : List ℚ :=
  f.rows.map (fun r => r.getD i 0)

/-- Arithmetic mean (0 for an empty list, with rational division by 0
being 0). -/
def meanQ (xs : List ℚ) : ℚ := xs.sum / xs.length

/-- sklearn `mean_squared_error`. -/
def mean_squared_error (y yhat : List ℚ) : ℚ :=
  meanQ ((y.zip yhat).map (fun p => (p.1 - p.2) ^ 2))

/-- sklearn `mean_absolute_error`. -/
def mean_absolute_error (y yhat : List ℚ) : ℚ :=
  meanQ ((y.zip yhat).map (fun p => |p.1 - p.2|))

/-- sklearn `r2_score`, including its conventions for a constant target:
1.0 when the residuals also vanish, 0.0 otherwise. -/
def r2_score (y yhat : List ℚ) : ℚ :=
  let ssRes := ((y.zip yhat).map (fun p => (p.1 - p.2) ^ 2)).sum
  let ssTot := (y.map (fun v => (v - meanQ y) ^ 2)).sum
  if ssTot = 0 then (if ssRes = 0 then 1 else 0) else 1 - ssRes / ssTot

/-- The metrics dict built by `ModelEvaluation.evaluate`: the six metric
values together with alpha, l1_ratio, target_column and model_path.  The
RMSE entries are real square roots (irrational in general); the remaining
entries are exact rationals. -/
structure EvalMetrics where
  train_rmse : ℝ
  test_rmse : ℝ
  train_mae : ℚ
  test_mae : ℚ
  train_r2 : ℚ
  test_r2 : ℚ
  alpha : ℚ
  l1_ratio : ℚ
  target_column : String
  model_path : String

/-- What `ModelEvaluation.evaluate` produces: the returned metrics and the
files written under artifacts/model_evaluation as (path, content) pairs. -/
structure EvalOutput where
  metrics : EvalMetrics
  files : List (String × EvalMetrics)

namespace ModelEvaluation

/-- `ModelEvaluation.evaluate`, after the model, training info and the two
transformed CSVs have been loaded: resolve the target column (train
columns first, falling back to math_score, else the raised ValueError),
split features and target of both frames, predict with the model, compute
train/test RMSE, MAE and R2, and persist the metrics dict to
evaluation_metrics.pkl and (JSON-converted, with identical values) to
evaluation_metrics.json.  A resolved target absent from the test columns
models the KeyError raised by `test_data.drop`. -/
noncomputable def evaluate (model : List ℚ → ℚ) (ti : TrainingInfo)
    (model_path : String) (train_data test_data : NumFrame) :
    Except String EvalOutput :=
  match resolveTarget ti.target_column train_data.cols with
  | none => Except.error "target column not found in the data"
  | some target_column =>
    match colIdx train_data.cols target_column, colIdx test_data.cols target_column with
    | some i, some j =>
      let y_train := targetVals train_data i
      let y_test := targetVals test_data j
      let y_train_pred := (featureRows train_data i).map model
      let y_test_pred := (featureRows test_data j).map model
      let metrics : EvalMetrics :=
        { train_rmse := Real.sqrt (mean_squared_error y_train y_train_pred)
          test_rmse := Real.sqrt (mean_squared_error y_test y_test_pred)
          train_mae := mean_absolute_error y_train y_train_pred
          test_mae := mean_absolute_error y_test y_test_pred
          train_r2 := r2_score y_train y_train_pred
          test_r2 := r2_score y_test y_test_pred
          alpha := ti.alpha
          l1_ratio := ti.l1_ratio
          target_column := target_column
          model_path := model_path }
      Except.ok
        ⟨metrics,
         [("artifacts/model_evaluation/evaluation_metrics.pkl", metrics),
          ("artifacts/model_evaluation/evaluation_metrics.json", metrics)]⟩
    | _, _ => Except.error "KeyError"

end ModelEvaluation

theorem floatD_of_scoreOk (data : JObj) (key : String) (d : ℚ)
    (h : scoreOk data key = true) :
    floatD (jget data key) d = some (fallbackNum data key d) := by
  unfold scoreOk at h
  unfold floatD fallbackNum
  cases hj : jget data key with
  | none => rfl
  | some v =>
    cases v with
    | jstr s => rw [hj] at h; exact absurd h (by simp)
    | jnum q => rfl

/-- On bodies whose score fields are numeric or absent, each step of the
if/elif chain of `api/index.py` succeeds and computes the specified
training-time encoding of the column. -/
theorem encodeFeature_eq_spec (data : JObj) (col : String)
    (hr : scoreOk data "reading_score" = true)
    (hw : scoreOk data "writing_score" = true) :
    ApiIndex.encodeFeature data col = some (specEncode data col) := by
  have er := floatD_of_scoreOk data "reading_score" 0 hr
  have ew := floatD_of_scoreOk data "writing_score" 0 hw
  by_cases h1 : col = "gender_male"
  · subst h1; rfl
  by_cases h2 : col = "lunch_standard"
  · subst h2; simp [ApiIndex.encodeFeature, specEncode]
  by_cases h3 : col = "parental_level_of_education_bachelor\x27s degree"
  · subst h3; simp [ApiIndex.encodeFeature, specEncode]
  by_cases h4 : col = "parental_level_of_education_high school"
  · subst h4; simp [ApiIndex.encodeFeature, specEncode]
  by_cases h5 : col = "parental_level_of_education_master\x27s degree"
  · subst h5; simp [ApiIndex.encodeFeature, specEncode]
  by_cases h6 : col = "parental_level_of_education_some college"
  · subst h6; simp [ApiIndex.encodeFeature, specEncode]
  by_cases h7 : col = "parental_level_of_education_some high school"
  · subst h7; simp [ApiIndex.encodeFeature, specEncode]
  by_cases h8 : col = "race_ethnicity_group B"
  · subst h8; simp [ApiIndex.encodeFeature, specEncode]
  by_cases h9 : col = "race_ethnicity_group C"
  · subst h9; simp [ApiIndex.encodeFeature, specEncode]
  by_cases h10 : col = "race_ethnicity_group D"
  · subst h10; simp [ApiIndex.encodeFeature, specEncode]
  by_cases h11 : col = "race_ethnicity_group E"
  · subst h11; simp [ApiIndex.encodeFeature, specEncode]
  by_cases h12 : col = "reading_score"
  · subst h12; simpa [ApiIndex.encodeFeature, specEncode] using er
  by_cases h13 : col = "test_preparation_course_none"
  · subst h13; simp [ApiIndex.encodeFeature, specEncode]
  by_cases h14 : col = "writing_score"
  · subst h14; simpa [ApiIndex.encodeFeature, specEncode] using ew
  simp [ApiIndex.encodeFeature, specEncode, h1, h2, h3, h4, h5, h6, h7,
    h8, h9, h10, h11, h12, h13, h14]

/-- On bodies whose score fields are numeric or absent, the whole feature
loop of `api/index.py` succeeds and yields the columnwise specified
encoding. -/
theorem mapM_encodeFeature (data : JObj)
    (hr : scoreOk data "reading_score" = true)
    (hw : scoreOk data "writing_score" = true) :
    ∀ cols : List String,
      cols.mapM (ApiIndex.encodeFeature data) = some (cols.map (specEncode data))
  | [] => rfl
  | c :: cs => by
    rw [List.mapM_cons, encodeFeature_eq_spec data c hr hw, mapM_encodeFeature data hr hw cs]
    rfl

/-- Auxiliary: a successful `mapM` over `Option` preserves list length. -/
theorem mapM_option_length {α β : Type} (f : α → Option β) :
    ∀ (l : List α) (v : List β), l.mapM f = some v → v.length = l.length
  | [], v, h => by
    simp only [List.mapM_nil, Option.pure_def, Option.some.injEq] at h
    simp [← h]
  | a :: l, v, h => by
    rw [List.mapM_cons] at h
    cases hf : f a with
    | none => rw [hf] at h; simp at h
    | some b =>
      rw [hf] at h
      cases hl : l.mapM f with
      | none => rw [hl] at h; simp at h
      | some w =>
        rw [hl] at h
        simp only [Option.pure_def, Option.bind_eq_bind, Option.some_bind,
          Option.some.injEq] at h
        subst h
        simp [mapM_option_length f l w hl]

/-- C1 (counterexample): the claim fails as stated: for the JSON body
whose reading_score is the non-numeric string "ninety", `float()` raises,
the surrounding try/except makes `preprocess_input` return `None`, and no
feature vector of length `len(feature_columns)` is returned. -/
theorem c1_counterexample :
    ApiIndex.preprocess_input [("reading_score", JVal.jstr "ninety")]
      (some ⟨trainingFeatureColumns, 1/10, 1/2, "math_score"⟩) = none := by
  decide

/-- C1 (amended): for every JSON request body whose reading_score and
writing_score fields, when present, are JSON numbers, and every
training_info, `preprocess_input` in `api/index.py` returns the feature
vector obtained by encoding each entry of `feature_columns` in order with
the training-time one-hot encoding (1 exactly when the corresponding
categorical field equals the category named in the column, the numeric
value of reading_score / writing_score with 0 when absent, 0 for
unrecognised columns); in particular its length is
`len(feature_columns)`. -/
theorem c1_amended_preprocess_encoding (data : JObj) (ti : TrainingInfo)
    (hr : scoreOk data "reading_score" = true)
    (hw : scoreOk data "writing_score" = true) :
    ApiIndex.preprocess_input data (some ti) =
        some (ti.feature_columns.map (specEncode data)) ∧
    (ti.feature_columns.map (specEncode data)).length = ti.feature_columns.length := by
  refine ⟨?_, by simp⟩
  unfold ApiIndex.preprocess_input
  exact mapM_encodeFeature data hr hw ti.feature_columns

/-- Witness for C1's amended theorem at a concrete body and the training
feature columns. -/
theorem c1_witness :
    scoreOk [("gender", JVal.jstr "male"), ("reading_score", JVal.jnum 72)] "reading_score" = true ∧
    scoreOk [("gender", JVal.jstr "male"), ("reading_score", JVal.jnum 72)] "writing_score" = true ∧
    (ApiIndex.preprocess_input [("gender", JVal.jstr "male"), ("reading_score", JVal.jnum 72)]
        (some ⟨trainingFeatureColumns, 1/10, 1/2, "math_score"⟩) =
      some (trainingFeatureColumns.map
        (specEncode [("gender", JVal.jstr "male"), ("reading_score", JVal.jnum 72)]))) :=
  ⟨rfl, rfl,
    (c1_amended_preprocess_encoding
      [("gender", JVal.jstr "male"), ("reading_score", JVal.jnum 72)]
      ⟨trainingFeatureColumns, 1/10, 1/2, "math_score"⟩ rfl rfl).1⟩

/-- C2 (counterexample): the claim fails as stated: a POST with the
non-empty JSON body whose reading_score is the string "eighty" makes the
`float()` conversion raise even though model and training info are
loaded, and the handler answers HTTP 400, not 200. -/
theorem c2_counterexample :
    ApiIndex.predict (some [("reading_score", JVal.jstr "eighty")])
        (some (fun _ => 0, ⟨trainingFeatureColumns, 1/10, 1/2, "math_score"⟩)) 0 =
      ⟨400, none, none, some "Failed to preprocess input data"⟩ := by
  decide

/-- C2 (amended): for every POST to /predict or /api/predict with a
non-empty JSON body whose reading_score and writing_score fields, when
present, are JSON numbers, if the pickled model and training info load
successfully the handler one-hot-encodes the body into a feature vector
and returns HTTP 200 whose prediction field equals the first element of
`model.predict` applied to the encoded vector. -/
theorem c2_amended_predict_success (p : String × JVal) (rest : JObj)
    (model : List ℚ → ℚ) (ti : TrainingInfo) (noise : ℚ)
    (hr : scoreOk (p :: rest) "reading_score" = true)
    (hw : scoreOk (p :: rest) "writing_score" = true) :
    ApiIndex.predict (some (p :: rest)) (some (model, ti)) noise =
      ⟨200, some (model (ti.feature_columns.map (specEncode (p :: rest)))),
        some "trained_elasticnet", none⟩ := by
  simp only [ApiIndex.predict, ApiIndex.preprocess_input, List.isEmpty_cons,
    Bool.false_eq_true, if_false, mapM_encodeFeature (p :: rest) hr hw]

/-- Witness for C2's amended theorem at a concrete body, model and
training info. -/
theorem c2_witness :
    scoreOk [("gender", JVal.jstr "male")] "reading_score" = true ∧
    scoreOk [("gender", JVal.jstr "male")] "writing_score" = true ∧
    ApiIndex.predict (some [("gender", JVal.jstr "male")])
        (some (fun v => v.headD 0, ⟨trainingFeatureColumns, 1/10, 1/2, "math_score"⟩)) 3 =
      ⟨200, some ((fun v : List ℚ => v.headD 0)
          (trainingFeatureColumns.map (specEncode [("gender", JVal.jstr "male")]))),
        some "trained_elasticnet", none⟩ :=
  ⟨rfl, rfl,
    c2_amended_predict_success ("gender", JVal.jstr "male") [] (fun v => v.headD 0)
      ⟨trainingFeatureColumns, 1/10, 1/2, "math_score"⟩ 3 rfl rfl⟩

/-- C5 (counterexample): the claim fails as stated: on the JSON body with
gender "male", `preprocess_input` of `api/index.py` (with the training
feature order) puts 1 in the gender_male position, while
`preprocess_input` of `api/predict.py` (which looks up pre-encoded dummy
keys such as gender_male directly in the body) returns the all-zero
vector, so the two variants do not produce the same feature vector. -/
theorem c5_counterexample :
    ApiIndex.preprocess_input [("gender", JVal.jstr "male")]
        (some ⟨trainingFeatureColumns, 1/10, 1/2, "math_score"⟩) =
      some [1, 0, 0, 0, 0, 0, 0, 0, 0, 0, 0, 0, 0, 0] ∧
    ApiPredict.preprocess_input [("gender", JVal.jstr "male")] =
      List.replicate 14 (JVal.jnum 0) ∧
    ([1, 0, 0, 0, 0, 0, 0, 0, 0, 0, 0, 0, 0, 0] : List ℚ).map JVal.jnum ≠
      List.replicate 14 (JVal.jnum 0) := by
  decide

/-- C5 (amended): the two API variants do not implement the same encoding
(api/predict.py reads pre-encoded underscore-named dummy keys in a
different feature order); they agree only in the length of the vector:
whenever `api/index.py`'s `preprocess_input` succeeds on the training
feature columns, both variants produce vectors of length 14. -/
theorem c5_amended_equal_length (data : JObj) (ti : TrainingInfo) (v : List ℚ)
    (hcols : ti.feature_columns = trainingFeatureColumns)
    (h : ApiIndex.preprocess_input data (some ti) = some v) :
    v.length = (ApiPredict.preprocess_input data).length ∧
    (ApiPredict.preprocess_input data).length = 14 := by
  have hlen : (ApiPredict.preprocess_input data).length = 14 := by
    simp [ApiPredict.preprocess_input, ApiPredict.expected_features]
  have hv : v.length = ti.feature_columns.length := by
    unfold ApiIndex.preprocess_input at h
    exact mapM_option_length _ _ _ h
  refine ⟨?_, hlen⟩
  rw [hv, hcols, hlen]
  rfl

/-- Witness for C5's amended theorem at the empty body. -/
theorem c5_witness :
    (⟨trainingFeatureColumns, 1/10, 1/2, "math_score"⟩ : TrainingInfo).feature_columns =
      trainingFeatureColumns ∧
    ApiIndex.preprocess_input [] (some ⟨trainingFeatureColumns, 1/10, 1/2, "math_score"⟩) =
      some [0, 0, 0, 0, 0, 0, 0, 0, 0, 0, 0, 0, 0, 0] ∧
    ([0, 0, 0, 0, 0, 0, 0, 0, 0, 0, 0, 0, 0, 0] : List ℚ).length =
      (ApiPredict.preprocess_input []).length :=
  ⟨rfl, by decide,
    (c5_amended_equal_length [] ⟨trainingFeatureColumns, 1/10, 1/2, "math_score"⟩
      [0, 0, 0, 0, 0, 0, 0, 0, 0, 0, 0, 0, 0, 0] rfl (by decide)).1⟩

/-- C10 (counterexample): the claim fails as stated: with the model
unavailable, the non-empty JSON body whose reading_score is the string
"eighty" makes `float()` raise inside the fallback branch; the outer
except answers HTTP 500, not 200 with the mock prediction. -/
theorem c10_counterexample :
    ApiIndex.predict (some [("reading_score", JVal.jstr "eighty")]) none 0 =
      ⟨500, none, none, some "could not convert string to float"⟩ ∧
    (ApiIndex.predict (some [("reading_score", JVal.jstr "eighty")]) none 0).status ≠ 200 := by
  decide

/-- C10 (amended): when the pickled model or training info cannot be
loaded, for every non-empty JSON body whose reading_score and
writing_score fields, when present, are JSON numbers, the handler returns
HTTP 200 with model_used equal to "fallback_intelligent_mock" and a
prediction value in the closed interval [0, 100] (the mock score is
clamped with max(0, min(100, ...))). -/
theorem c10_amended_fallback (p : String × JVal) (rest : JObj) (noise : ℚ)
    (hr : scoreOk (p :: rest) "reading_score" = true)
    (hw : scoreOk (p :: rest) "writing_score" = true) :
    ∃ pr : ℚ,
      ApiIndex.predict (some (p :: rest)) none noise =
        ⟨200, some pr, some "fallback_intelligent_mock", none⟩ ∧
      0 ≤ pr ∧ pr ≤ 100 := by
  have er := floatD_of_scoreOk (p :: rest) "reading_score" 50 hr
  have ew := floatD_of_scoreOk (p :: rest) "writing_score" 50 hw
  refine ⟨mockScore (p :: rest) noise, ?_, le_max_left 0 _,
    max_le (by norm_num) (min_le_left 100 _)⟩
  simp only [ApiIndex.predict, List.isEmpty_cons, Bool.false_eq_true, if_false, er, ew,
    mockScore]

/-- Witness for C10's amended theorem at a concrete body. -/
theorem c10_witness :
    scoreOk [("lunch", JVal.jstr "standard")] "reading_score" = true ∧
    scoreOk [("lunch", JVal.jstr "standard")] "writing_score" = true ∧
    ∃ pr : ℚ,
      ApiIndex.predict (some [("lunch", JVal.jstr "standard")]) none 2 =
        ⟨200, some pr, some "fallback_intelligent_mock", none⟩ ∧
      0 ≤ pr ∧ pr ≤ 100 :=
  ⟨rfl, rfl, c10_amended_fallback ("lunch", JVal.jstr "standard") [] 2 rfl rfl⟩

/-- C3: a run of main.py in which every stage's main() returns normally
executes exactly the five stages data ingestion, data validation, data
transformation, model training, model evaluation, in that order, strictly
sequentially (stage k+1 starts only after stage k completed) and runs no
stage twice; no exception escapes. -/
theorem c3_pipeline_order (beh : Stage → Except String Unit)
    (h : ∀ s, beh s = Except.ok ()) :
    runMain beh = ⟨allStagesTrace, none⟩ := by
  simp [runMain, stageOrder, runStage, h, allStagesTrace]

/-- Witness for C3 with the all-succeeding stage behaviour. -/
theorem c3_witness :
    (∀ s : Stage, (fun _ : Stage => (Except.ok () : Except String Unit)) s = Except.ok ()) ∧
    runMain (fun _ => Except.ok ()) = ⟨allStagesTrace, none⟩ :=
  ⟨fun _ => rfl, c3_pipeline_order (fun _ => Except.ok ()) (fun _ => rfl)⟩

/-- C4: for every stage run by main.py, if that stage's main() raises an
exception (and the earlier stages succeeded, so the run reaches it), the
exception is logged and re-raised: the run's trace consists of the
earlier stages (each run exactly once), the failing stage started once
and its exception logged, with no retry, no later stage started, and the
error propagating out of main.py. -/
theorem c4_stage_failure_halts (beh : Stage → Except String Unit) (s : Stage) (e : String)
    (hfail : beh s = Except.error e)
    (hearlier : ∀ s2 : Stage, stageIdx s2 < stageIdx s → beh s2 = Except.ok ()) :
    runMain beh =
      ⟨prefixTrace s ++ [Event.started s, Event.exceptionLogged e], some e⟩ := by
  cases s with
  | data_ingestion =>
    simp [runMain, stageOrder, runStage, hfail, prefixTrace]
  | data_validation =>
    have h0 := hearlier Stage.data_ingestion (by decide)
    simp [runMain, stageOrder, runStage, hfail, h0, prefixTrace, allStagesTrace]
  | data_transformation =>
    have h0 := hearlier Stage.data_ingestion (by decide)
    have h1 := hearlier Stage.data_validation (by decide)
    simp [runMain, stageOrder, runStage, hfail, h0, h1, prefixTrace, allStagesTrace]
  | model_training =>
    have h0 := hearlier Stage.data_ingestion (by decide)
    have h1 := hearlier Stage.data_validation (by decide)
    have h2 := hearlier Stage.data_transformation (by decide)
    simp [runMain, stageOrder, runStage, hfail, h0, h1, h2, prefixTrace, allStagesTrace]
  | model_evaluation =>
    have h0 := hearlier Stage.data_ingestion (by decide)
    have h1 := hearlier Stage.data_validation (by decide)
    have h2 := hearlier Stage.data_transformation (by decide)
    have h3 := hearlier Stage.model_training (by decide)
    simp [runMain, stageOrder, runStage, hfail, h0, h1, h2, h3, prefixTrace, allStagesTrace]

/-- Witness for C4: the transformation stage fails, the two earlier stages
succeed, and the run stops at the transformation stage with the exception
logged and re-raised. -/
theorem c4_witness :
    (fun st => if st = Stage.data_transformation then (Except.error "boom" : Except String Unit)
      else Except.ok ()) Stage.data_transformation = Except.error "boom" ∧
    (∀ s2 : Stage, stageIdx s2 < stageIdx Stage.data_transformation →
      (fun st => if st = Stage.data_transformation then (Except.error "boom" : Except String Unit)
        else Except.ok ()) s2 = Except.ok ()) ∧
    runMain (fun st => if st = Stage.data_transformation then Except.error "boom"
      else Except.ok ()) =
      ⟨prefixTrace Stage.data_transformation ++
        [Event.started Stage.data_transformation, Event.exceptionLogged "boom"], some "boom"⟩ :=
  ⟨rfl,
   fun s2 hs2 => by cases s2 <;> simp_all [stageIdx],
   c4_stage_failure_halts _ Stage.data_transformation "boom" rfl
     (fun s2 hs2 => by cases s2 <;> simp_all [stageIdx])⟩

/-- C8: the data-validation stage can never halt the pipeline:
DataValidationPipeline.main returns normally whatever
validate_all_files_exist does (a False status is only written to the
status file and logged, and an inner exception is caught without
re-raising), so when the other stages succeed, main.py runs all five
stages to completion regardless of the validation outcome. -/
theorem c8_validation_cannot_halt (listing : Except String (List String))
    (required : List String) :
    DataValidationPipeline.main listing required = Except.ok () ∧
    runMain (fun s => if s = Stage.data_validation then
        DataValidationPipeline.main listing required
      else Except.ok ()) = ⟨allStagesTrace, none⟩ := by
  have hmain : DataValidationPipeline.main listing required = Except.ok () := by
    unfold DataValidationPipeline.main
    cases h : validate_all_files_exist listing required <;> rfl
  refine ⟨hmain, ?_⟩
  simp [runMain, stageOrder, runStage, hmain, allStagesTrace]

/-- Auxiliary: mapping a pointwise-identity function changes nothing. -/
theorem map_eq_self {α : Type} (f : α → α) (h : ∀ x, f x = x) :
    ∀ xs : List α, xs.map f = xs
  | [] => rfl
  | x :: xs => by rw [List.map_cons, h x, map_eq_self f h xs]

/-- Auxiliary: mapping pointwise-equal functions gives equal lists. -/
theorem map_fun_ext {α β : Type} (f g : α → β) (h : ∀ x, f x = g x) :
    ∀ xs : List α, xs.map f = xs.map g
  | [] => rfl
  | x :: xs => by rw [List.map_cons, List.map_cons, h x, map_fun_ext f g h xs]

/-- Columnwise, `fillna` with the median/first-mode coincides with the
entrywise description of the imputation. -/
theorem fillCol_eq_spec : ∀ c : ColData, fillCol c = specFillCol c
  | ColData.num xs => by
    unfold fillCol specFillCol
    cases h : xs.filterMap id with
    | nil =>
      simp only [h, List.isEmpty_nil, if_true]
      exact congrArg ColData.num
        (map_eq_self _ (fun x => by cases x <;> rfl) xs).symm
    | cons y ys =>
      simp only [h, List.isEmpty_cons, Bool.false_eq_true, if_false]
      exact congrArg ColData.num
        (map_fun_ext _ _ (fun x => by cases x <;> rfl) xs)
  | ColData.obj xs => by
    unfold fillCol specFillCol
    cases h : modeFirst (xs.filterMap id) with
    | none =>
      simp only [h]
      exact congrArg ColData.obj
        (map_eq_self _ (fun x => by cases x <;> rfl) xs).symm
    | some m =>
      simp only [h]
      exact congrArg ColData.obj
        (map_fun_ext _ _ (fun x => by cases x <;> rfl) xs)

/-- C7: for every input DataFrame, handle_missing_values keeps the column
names and order and, columnwise, fills each missing entry of an
int64/float64 column with that column's median (over its non-null values;
an all-missing column stays missing, its median being NaN), fills each
missing entry of an object column with that column's first mode when one
exists, and leaves every non-missing entry unchanged. -/
theorem c7_missing_values (data : MixedFrame) :
    handle_missing_values data = data.map (fun p => (p.1, specFillCol p.2)) := by
  unfold handle_missing_values
  induction data with
  | nil => rfl
  | cons p rest ih => simp [ih, fillCol_eq_spec]

/-- Auxiliary: merge sort with the decidable String order sorts. -/
theorem sortString_sorted (l : List String) :
    List.Sorted (· ≤ ·) (l.mergeSort (fun a b => decide (a ≤ b))) := by
  have h : (l.mergeSort (fun a b => decide (a ≤ b))).Pairwise
      (fun a b => decide (a ≤ b) = true) :=
    List.sorted_mergeSort
      (fun a b c hab hbc => by
        simp only [decide_eq_true_eq] at hab hbc ⊢
        exact le_trans hab hbc)
      (fun a b => by simpa using le_total a b) l
  exact List.Pairwise.imp (fun hx => by simpa using hx) h

/-- C9: after the column-alignment tail of DataTransformation.transform,
the train and test frames carry exactly the same columns in identical
ascending sorted order (the sorted union of the two original column
sets), and every column that was present in only one frame appears in the
other as the constant-0 column. -/
theorem c9_aligned_columns (train_data test_data : QFrame)
    (htr : train_data.cols.Nodup) (hte : test_data.cols.Nodup) :
    (alignColumns train_data test_data).1.cols =
      (alignColumns train_data test_data).2.cols ∧
    List.Sorted (· ≤ ·) (alignColumns train_data test_data).1.cols ∧
    (∀ c, c ∈ (alignColumns train_data test_data).1.cols ↔
      (c ∈ train_data.cols ∨ c ∈ test_data.cols)) ∧
    (∀ c, c ∈ test_data.cols → c ∉ train_data.cols →
      (alignColumns train_data test_data).1.colData c =
        List.replicate train_data.nrows 0) ∧
    (∀ c, c ∈ train_data.cols → c ∉ test_data.cols →
      (alignColumns train_data test_data).2.colData c =
        List.replicate test_data.nrows 0) := by
  have hcols1 : (alignColumns train_data test_data).1.cols =
      (train_data.cols ++
        test_data.cols.filter (fun c => decide (c ∉ train_data.cols))).mergeSort
        (fun a b => decide (a ≤ b)) := rfl
  have hcols2 : (alignColumns train_data test_data).2.cols =
      (test_data.cols ++
        train_data.cols.filter (fun c => decide (c ∉ test_data.cols))).mergeSort
        (fun a b => decide (a ≤ b)) := rfl
  have hAnodup : (train_data.cols ++
      test_data.cols.filter (fun c => decide (c ∉ train_data.cols))).Nodup := by
    refine htr.append (hte.filter _) ?_
    intro a ha hb
    rcases List.mem_filter.1 hb with ⟨_, hdec⟩
    exact absurd ha (by simpa using hdec)
  have hBnodup : (test_data.cols ++
      train_data.cols.filter (fun c => decide (c ∉ test_data.cols))).Nodup := by
    refine hte.append (htr.filter _) ?_
    intro a ha hb
    rcases List.mem_filter.1 hb with ⟨_, hdec⟩
    exact absurd ha (by simpa using hdec)
  have hmemA : ∀ c, c ∈ train_data.cols ++
      test_data.cols.filter (fun c => decide (c ∉ train_data.cols)) ↔
      (c ∈ train_data.cols ∨ c ∈ test_data.cols) := by
    intro c
    simp only [List.mem_append, List.mem_filter, decide_eq_true_eq]
    tauto
  have hmemB : ∀ c, c ∈ test_data.cols ++
      train_data.cols.filter (fun c => decide (c ∉ test_data.cols)) ↔
      (c ∈ train_data.cols ∨ c ∈ test_data.cols) := by
    intro c
    simp only [List.mem_append, List.mem_filter, decide_eq_true_eq]
    tauto
  have hperm : List.Perm (train_data.cols ++
      test_data.cols.filter (fun c => decide (c ∉ train_data.cols)))
      (test_data.cols ++
        train_data.cols.filter (fun c => decide (c ∉ test_data.cols))) :=
    (List.perm_ext_iff_of_nodup hAnodup hBnodup).2
      (fun c => (hmemA c).trans (hmemB c).symm)
  have hpermSort : List.Perm ((train_data.cols ++
      test_data.cols.filter (fun c => decide (c ∉ train_data.cols))).mergeSort
        (fun a b => decide (a ≤ b)))
      ((test_data.cols ++
        train_data.cols.filter (fun c => decide (c ∉ test_data.cols))).mergeSort
        (fun a b => decide (a ≤ b))) :=
    (List.mergeSort_perm _ _).trans (hperm.trans (List.mergeSort_perm _ _).symm)
  have hEq : ((train_data.cols ++
      test_data.cols.filter (fun c => decide (c ∉ train_data.cols))).mergeSort
        (fun a b => decide (a ≤ b))) =
      ((test_data.cols ++
        train_data.cols.filter (fun c => decide (c ∉ test_data.cols))).mergeSort
        (fun a b => decide (a ≤ b))) :=
    List.eq_of_perm_of_sorted hpermSort (sortString_sorted _) (sortString_sorted _)
  refine ⟨by rw [hcols1, hcols2, hEq], by rw [hcols1]; exact sortString_sorted _,
    ?_, ?_, ?_⟩
  · intro c
    rw [hcols1, List.mem_mergeSort]
    exact hmemA c
  · intro c hcte hcntr
    show (if c ∈ test_data.cols.filter (fun c => decide (c ∉ train_data.cols)) then
        List.replicate train_data.nrows 0 else train_data.colData c) =
      List.replicate train_data.nrows 0
    rw [if_pos (List.mem_filter.2 ⟨hcte, by simpa using hcntr⟩)]
  · intro c hctr hcnte
    show (if c ∈ train_data.cols.filter (fun c => decide (c ∉ test_data.cols)) then
        List.replicate test_data.nrows 0 else test_data.colData c) =
      List.replicate test_data.nrows 0
    rw [if_pos (List.mem_filter.2 ⟨hctr, by simpa using hcnte⟩)]

/-- Witness for C9 at two concrete two-column frames with one shared
column. -/
theorem c9_witness :
    (["b", "math_score"] : List String).Nodup ∧
    (["a", "math_score"] : List String).Nodup ∧
    ((alignColumns ⟨["b", "math_score"], 2, fun _ => [1, 2]⟩
        ⟨["a", "math_score"], 1, fun _ => [3]⟩).1.cols =
      (alignColumns ⟨["b", "math_score"], 2, fun _ => [1, 2]⟩
        ⟨["a", "math_score"], 1, fun _ => [3]⟩).2.cols ∧
    List.Sorted (· ≤ ·)
      (alignColumns ⟨["b", "math_score"], 2, fun _ => [1, 2]⟩
        ⟨["a", "math_score"], 1, fun _ => [3]⟩).1.cols ∧
    (∀ c, c ∈ (alignColumns ⟨["b", "math_score"], 2, fun _ => [1, 2]⟩
        ⟨["a", "math_score"], 1, fun _ => [3]⟩).1.cols ↔
      (c ∈ (["b", "math_score"] : List String) ∨
        c ∈ (["a", "math_score"] : List String))) ∧
    (∀ c, c ∈ (["a", "math_score"] : List String) →
      c ∉ (["b", "math_score"] : List String) →
      (alignColumns ⟨["b", "math_score"], 2, fun _ => [1, 2]⟩
        ⟨["a", "math_score"], 1, fun _ => [3]⟩).1.colData c = List.replicate 2 0) ∧
    (∀ c, c ∈ (["b", "math_score"] : List String) →
      c ∉ (["a", "math_score"] : List String) →
      (alignColumns ⟨["b", "math_score"], 2, fun _ => [1, 2]⟩
        ⟨["a", "math_score"], 1, fun _ => [3]⟩).2.colData c = List.replicate 1 0)) :=
  ⟨by decide, by decide,
    c9_aligned_columns ⟨["b", "math_score"], 2, fun _ => [1, 2]⟩
      ⟨["a", "math_score"], 1, fun _ => [3]⟩ (by decide) (by decide)⟩

/-- C6: ModelEvaluation.evaluate computes, for both the train and the test
split, RMSE as the square root of the mean squared error between targets
and model predictions, MAE as the mean absolute error, and the R2 score,
and persists all six metric values together with alpha, l1_ratio,
target_column and model_path to both evaluation_metrics.pkl and
evaluation_metrics.json under artifacts/model_evaluation (the two files
hold the same values). -/
theorem c6_evaluate_metrics (model : List ℚ → ℚ) (ti : TrainingInfo)
    (model_path : String) (train_data test_data : NumFrame)
    (t : String) (i j : Nat)
    (h1 : resolveTarget ti.target_column train_data.cols = some t)
    (h2 : colIdx train_data.cols t = some i)
    (h3 : colIdx test_data.cols t = some j) :
    ∃ m : EvalMetrics,
      ModelEvaluation.evaluate model ti model_path train_data test_data =
        Except.ok
          ⟨m, [("artifacts/model_evaluation/evaluation_metrics.pkl", m),
               ("artifacts/model_evaluation/evaluation_metrics.json", m)]⟩ ∧
      m.train_rmse = Real.sqrt (mean_squared_error (targetVals train_data i)
        ((featureRows train_data i).map model)) ∧
      m.test_rmse = Real.sqrt (mean_squared_error (targetVals test_data j)
        ((featureRows test_data j).map model)) ∧
      m.train_mae = mean_absolute_error (targetVals train_data i)
        ((featureRows train_data i).map model) ∧
      m.test_mae = mean_absolute_error (targetVals test_data j)
        ((featureRows test_data j).map model) ∧
      m.train_r2 = r2_score (targetVals train_data i)
        ((featureRows train_data i).map model) ∧
      m.test_r2 = r2_score (targetVals test_data j)
        ((featureRows test_data j).map model) ∧
      m.alpha = ti.alpha ∧ m.l1_ratio = ti.l1_ratio ∧
      m.target_column = t ∧ m.model_path = model_path := by
  unfold ModelEvaluation.evaluate
  simp only [h1, h2, h3]
  exact ⟨_, rfl, rfl, rfl, rfl, rfl, rfl, rfl, rfl, rfl, rfl, rfl⟩

/-- Witness for C6 at a two-row train frame, a one-row test frame and a
concrete linear model. -/
theorem c6_witness :
    resolveTarget "math_score" (["math_score", "x"] : List String) = some "math_score" ∧
    colIdx ["math_score", "x"] "math_score" = some 0 ∧
    colIdx ["math_score", "x"] "math_score" = some 0 ∧
    (∃ m : EvalMetrics,
      ModelEvaluation.evaluate (fun r => r.headD 0)
          ⟨["x"], 1/10, 1/2, "math_score"⟩ "artifacts/model_trainer/model.pkl"
          ⟨["math_score", "x"], [[3, 1], [5, 3]]⟩
          ⟨["math_score", "x"], [[4, 2]]⟩ =
        Except.ok
          ⟨m, [("artifacts/model_evaluation/evaluation_metrics.pkl", m),
               ("artifacts/model_evaluation/evaluation_metrics.json", m)]⟩ ∧
      m.train_rmse = Real.sqrt (mean_squared_error
        (targetVals ⟨["math_score", "x"], [[3, 1], [5, 3]]⟩ 0)
        ((featureRows ⟨["math_score", "x"], [[3, 1], [5, 3]]⟩ 0).map (fun r => r.headD 0))) ∧
      m.test_rmse = Real.sqrt (mean_squared_error
        (targetVals ⟨["math_score", "x"], [[4, 2]]⟩ 0)
        ((featureRows ⟨["math_score", "x"], [[4, 2]]⟩ 0).map (fun r => r.headD 0))) ∧
      m.train_mae = mean_absolute_error
        (targetVals ⟨["math_score", "x"], [[3, 1], [5, 3]]⟩ 0)
        ((featureRows ⟨["math_score", "x"], [[3, 1], [5, 3]]⟩ 0).map (fun r => r.headD 0)) ∧
      m.test_mae = mean_absolute_error
        (targetVals ⟨["math_score", "x"], [[4, 2]]⟩ 0)
        ((featureRows ⟨["math_score", "x"], [[4, 2]]⟩ 0).map (fun r => r.headD 0)) ∧
      m.train_r2 = r2_score
        (targetVals ⟨["math_score", "x"], [[3, 1], [5, 3]]⟩ 0)
        ((featureRows ⟨["math_score", "x"], [[3, 1], [5, 3]]⟩ 0).map (fun r => r.headD 0)) ∧
      m.test_r2 = r2_score
        (targetVals ⟨["math_score", "x"], [[4, 2]]⟩ 0)
        ((featureRows ⟨["math_score", "x"], [[4, 2]]⟩ 0).map (fun r => r.headD 0)) ∧
      m.alpha = (⟨["x"], 1/10, 1/2, "math_score"⟩ : TrainingInfo).alpha ∧
      m.l1_ratio = (⟨["x"], 1/10, 1/2, "math_score"⟩ : TrainingInfo).l1_ratio ∧
      m.target_column = "math_score" ∧
      m.model_path = "artifacts/model_trainer/model.pkl") :=
  ⟨by decide, by decide, by decide,
    c6_evaluate_metrics (fun r => r.headD 0) ⟨["x"], 1/10, 1/2, "math_score"⟩
      "artifacts/model_trainer/model.pkl"
      ⟨["math_score", "x"], [[3, 1], [5, 3]]⟩ ⟨["math_score", "x"], [[4, 2]]⟩
      "math_score" 0 0 (by decide) (by decide) (by decide)⟩
